import Mathlib

/-!
Shallow embedding of `src/tmp-benchmark/main.rs`.

The program is a benchmark harness: `Benchmark::cloned` and
`Benchmark::shared` each spawn `threads` worker threads, every worker runs
`ITERS` calls of `re.is_match(HAYSTACK)` counting the successful ones, the
spawning thread joins the workers, sums the counters, asserts the sum is
positive and returns `Ok(duration)`.  `main` reads `REGEX_BENCH_THREADS`
(parsed as `u32`) and `REGEX_BENCH_WHICH` from the environment, compiles the
fixed `PATTERN`, dispatches on the selector and prints the Debug rendering of
the `anyhow::Result<Duration>` value to stdout.

Wall-clock time is outside the embedding: the Debug rendering of the measured
`Duration` is carried as an abstract string `d`.  Observable side effects
(compiling the pattern, spawning a worker, writing a stdout line) are recorded
in an event trace so that ordering facts ("before any worker is spawned") are
statable.
-/

/-- `const ITERS: usize = 100_000;` (main.rs line 9). -/
def ITERS : Nat := 100000

/-- `const PATTERN: &str = "";` (main.rs line 10). -/
def PATTERN : String := ""

/-- `const HAYSTACK: &str = "ZQZQZQZQ";` (main.rs line 11). -/
def HAYSTACK : String := "ZQZQZQZQ"

/-- Modelled from the spec: the matcher collaborator (`regex::Regex`, external
to this repository) is treated as a black box offering a deterministic,
thread-safe `is_match` test; the embedding records only that observable
behaviour. -/
structure Regex where
  isMatch : String → Bool

/-- Modelled from the spec: `Regex::clone` shares the immutable compiled
state and only allocates a fresh scratch pool, so a clone decides exactly the
same language; the pool affects timing only, which the embedding does not
model. -/
def Regex.clone (re : Regex) : Regex := re

/-- Modelled from the spec: compiling the empty `PATTERN` with the builder of
main.rs lines 161-164 succeeds, and the empty pattern matches every haystack
on every call ("empty pattern matches every position/call"). -/
def emptyPatternRegex : Regex := ⟨fun _ => true⟩

/-- `struct Benchmark { re: Regex, threads: u32 }` (main.rs lines 13-17).
`threads` is the `u32` value as a natural number; `parseU32` below only ever
produces values below `2 ^ 32`. -/
structure Benchmark where
  re : Regex
  threads : Nat

/-- Both `matched` variables of main.rs (lines 110/119 and 141/150) carry
no type annotation, so Rust's integer fallback gives them type `i32`.  The
embedding represents an `i32` value by its 32-bit two's-complement bit
pattern, a natural number below `2 ^ 32`.  `wrapAdd` is `i32` addition in
the release profile, which wraps on overflow (a debug build would panic at
the first overflowing `+=` instead; the two profiles diverge only where the
sum leaves the `i32` range, and both abort the run at the counterexample
thread count below). -/
def wrapAdd (a b : Nat) : Nat := (a + b) % 2 ^ 32

/-- The signed value of an `i32` bit pattern: patterns at or above `2 ^ 31`
denote negative numbers. -/
def toI32 (a : Nat) : Int := if a < 2 ^ 31 then (a : Int) else (a : Int) - 2 ^ 32

/-- The worker closure (main.rs lines 110-116 and 141-147): loop `ITERS`
times, incrementing the `i32` counter `matched` whenever
`re.is_match(HAYSTACK)` holds, and return the counter.  The per-worker
counter never exceeds `ITERS = 100000 < 2 ^ 31`, so it never overflows. -/
def workerLoop (re : Regex) : Nat :=
  (List.range ITERS).foldl
    (fun matched _ => if re.isMatch HAYSTACK then wrapAdd matched 1 else matched) 0

/-- `std::sync::Arc`: shared ownership of one immutable value.  The embedding
keeps the value itself; sharing affects timing only. -/
@[reducible] def Arc (α : Type) : Type := α

/-- `Arc::new`. -/
def Arc.new {α : Type} (a : α) : Arc α := a

/-- `Arc::clone`: another handle to the same value. -/
def Arc.clone {α : Type} (a : Arc α) : Arc α := a

/-- The worker handles of `Benchmark::cloned` (main.rs lines 23 and
108-117): one spawned thread per unit of `self.threads`, each owning
`self.re.clone()` and returning its counter.  The closures are total, so
every spawned thread terminates normally with its counter. -/
def Benchmark.clonedHandles (b : Benchmark) : List Nat :=
  (List.range b.threads).map (fun _ => workerLoop b.re.clone)

/-- The worker handles of `Benchmark::shared` (main.rs lines 137-148): all
threads share `Arc::new(self.re.clone())`. -/
def Benchmark.sharedHandles (b : Benchmark) : List Nat :=
  let re := Arc.new b.re.clone
  (List.range b.threads).map (fun _ => workerLoop (Arc.clone re))

/-- The join loop (main.rs lines 119-122 and 150-153):
`matched += h.join().unwrap()`.  `h.join()` yields `none` when the worker
terminated abnormally (panicked); `.unwrap()` then panics in the joining
thread, modelled by the `none` result.  The joiner's `matched` is the
inferred `i32` accumulator, so each `+=` is `wrapAdd`: it can overflow once
the total reaches `i32::MAX`, which happens for thread counts of 21475 and
above (21475 * 100000 > 2 ^ 31 - 1). -/
def joinAll : Nat → List (Option Nat) → Option Nat
  | matched, [] => some matched
  | _, none :: _ => none
  | matched, some c :: hs => joinAll (wrapAdd matched c) hs

/-- Outcome of one call to `Benchmark::cloned` or `Benchmark::shared`.  The
Rust return type is `anyhow::Result<Duration>`; the measured duration itself
is wall-clock time, carried outside the embedding.  `ok matched` is an
`Ok(duration)` return, recording the aggregated `i32` counter as its bit
pattern; `errReturn` is an
`Err(..)` return, allowed by the type but never built by either body;
`assertFailure` is the `assert!(matched > 0)` panic (lines 123 and 154);
`workerPanic` is the `h.join().unwrap()` panic. -/
inductive StrategyResult where
  | ok (matched : Nat)
  | errReturn (msg : String)
  | assertFailure
  | workerPanic
deriving DecidableEq

/-- Main.rs lines 119-124 and 150-155: join all handles, sum the counters
into the `i32` accumulator, assert the (signed) sum is positive, return
`Ok(duration)`.  `assert!(matched > 0)` is a signed `i32` comparison, so a
wrapped-negative accumulator fails it. -/
def runStrategy (handles : List (Option Nat)) : StrategyResult :=
  match joinAll 0 handles with
  | none => StrategyResult.workerPanic
  | some matched =>
    if toI32 matched > 0 then StrategyResult.ok matched else StrategyResult.assertFailure

/-- `Benchmark::cloned` (main.rs lines 20-125).  The worker closures are
total functions, so every `join` succeeds: each handle is `some` of its
counter. -/
def Benchmark.cloned (b : Benchmark) : StrategyResult :=
  runStrategy (b.clonedHandles.map some)

/-- `Benchmark::shared` (main.rs lines 127-156). -/
def Benchmark.shared (b : Benchmark) : StrategyResult :=
  runStrategy (b.sharedHandles.map some)

/-- The aggregated `matched` accumulator of the `cloned` strategy (the
`i32` value tested by `assert!(matched > 0)` on line 123), as its 32-bit
pattern: each `+=` of lines 119-122 is the wrapping `i32` addition. -/
def Benchmark.clonedMatched (b : Benchmark) : Nat :=
  b.clonedHandles.foldl (fun a c => wrapAdd a c) 0

/-- The aggregated `matched` accumulator of the `shared` strategy
(line 154), the same wrapping `i32` sum. -/
def Benchmark.sharedMatched (b : Benchmark) : Nat :=
  b.sharedHandles.foldl (fun a c => wrapAdd a c) 0

/-- Observable side effects of `main`, in program order: the regex
compilation of lines 161-164, each `thread::spawn`, and each line written to
stdout. -/
inductive Event where
  | compiledPattern
  | spawnedWorker
  | printed (line : String)
deriving DecidableEq

/-- How the process terminates: `success` is `main` returning `Ok(())` (exit
code 0); `error` is `main` returning `Err` (anyhow prints the message to
stderr and the process exits with code 1); `panicked` is a panic aborting the
process (exit code 101, nothing further printed to stdout). -/
inductive MainOutcome where
  | success
  | error (msg : String)
  | panicked
deriving DecidableEq

/-- The process exit code of each outcome. -/
def exitCode : MainOutcome → Nat
  | MainOutcome.success => 0
  | MainOutcome.error _ => 1
  | MainOutcome.panicked => 101

/-- Leading-sign handling of Rust's `u32::from_str`: one optional `+`; a `-`
is not accepted for an unsigned type. -/
def stripPlus : List Char → List Char
  | [] => []
  | c :: rest => if c = '+' then rest else c :: rest

/-- Numeric value of a digit string, most significant digit first. -/
def digitsToNat (cs : List Char) : Nat :=
  cs.foldl (fun a c => a * 10 + (c.toNat - 48)) 0

/-- `str::parse::<u32>()` (main.rs line 160): an optional leading `+`, then
one or more ASCII digits whose value is at most `u32::MAX`; anything else is
a `ParseIntError`. -/
def parseU32 (s : String) : Option Nat :=
  let ds := stripPlus s.data
  if ds.isEmpty then none
  else if ds.all Char.isDigit then
    if digitsToNat ds < 2 ^ 32 then some (digitsToNat ds) else none
  else none

/-- Display text of `std::env::VarError::NotPresent`, surfaced by the `?`
operators on lines 160 and 166. -/
def envVarMissingMsg : String := "environment variable not found"

/-- Stand-in for the `ParseIntError` display text surfaced by the `?` on
line 160; the exact text depends on the failure kind and belongs to std, not
to this repository. -/
def parseIntErrorMsg : String := "invalid thread count"

/-- The spawn events of one strategy run: one per worker thread. -/
def spawnEvents (n : Nat) : List Event := List.replicate n Event.spawnedWorker

/-- The Debug rendering `format!("{:?}", duration)` of the
`anyhow::Result<Duration>` value printed on line 172, where `d` is the Debug
rendering of the `Duration` itself. -/
def resultLine : Except String Unit → String → String
  | Except.ok _, d => "Ok(" ++ d ++ ")"
  | Except.error e, _ => "Err(" ++ e ++ ")"

/-- Main.rs lines 172-173 applied to the strategy outcome: a panic inside the
strategy has already aborted the process; an `Ok` or `Err` return value is
printed with its `Result` Debug wrapper by `writeln!` and `main` then returns
`Ok(())`. -/
def finishRun (r : StrategyResult) (d : String) (evs : List Event) :
    MainOutcome × List Event :=
  match r with
  | StrategyResult.ok _ =>
      (MainOutcome.success, evs ++ [Event.printed (resultLine (Except.ok ()) d)])
  | StrategyResult.errReturn e =>
      (MainOutcome.success, evs ++ [Event.printed (resultLine (Except.error e) d)])
  | StrategyResult.assertFailure => (MainOutcome.panicked, evs)
  | StrategyResult.workerPanic => (MainOutcome.panicked, evs)

/-- Main.rs lines 161-173 after a successfully parsed thread count: build the
regex (modelled from the spec: the empty `PATTERN` compiles), read
`REGEX_BENCH_WHICH`, dispatch on it, print the result.  `d` is the Debug
rendering of the measured duration. -/
def withWhich (threads : Nat) (whichVar : Option String) (d : String) :
    MainOutcome × List Event :=
  match whichVar with
  | none => (MainOutcome.error envVarMissingMsg, [Event.compiledPattern])
  | some which =>
    let b : Benchmark := { re := emptyPatternRegex, threads := threads }
    if which = "cloned" then
      finishRun b.cloned d (Event.compiledPattern :: spawnEvents b.threads)
    else if which = "shared" then
      finishRun b.shared d (Event.compiledPattern :: spawnEvents b.threads)
    else
      (MainOutcome.error (String.append "unrecognized REGEX_BENCH_WHICH=" which),
        [Event.compiledPattern])

/-- Main.rs line 160 after reading the variable: `REGEX_BENCH_THREADS` must
parse as `u32`, otherwise the `?` returns the error from `main` before the
pattern is compiled. -/
def withParsed (parsed : Option Nat) (whichVar : Option String) (d : String) :
    MainOutcome × List Event :=
  match parsed with
  | none => (MainOutcome.error parseIntErrorMsg, [])
  | some threads => withWhich threads whichVar d

/-- `fn main()` (main.rs lines 159-174), as a function of the two environment
variables and of the duration rendering `d`. -/
def mainRun (threadsVar whichVar : Option String) (d : String) :
    MainOutcome × List Event :=
  match threadsVar with
  | none => (MainOutcome.error envVarMissingMsg, [])
  | some ts => withParsed (parseU32 ts) whichVar d

/-- The stdout lines among the events. -/
def printedLines (evs : List Event) : List String :=
  evs.filterMap (fun e =>
    match e with
    | Event.printed s => some s
    | _ => none)

/-! ## Helper lemmas -/

theorem foldl_wrapAdd_one {α : Type} (l : List α) (a : Nat)
    (h : a + l.length < 2 ^ 32) :
    l.foldl (fun m _ => wrapAdd m 1) a = a + l.length := by
  induction l generalizing a with
  | nil => simp
  | cons x xs ih =>
    simp only [List.length_cons] at h
    have h1 : wrapAdd a 1 = a + 1 := by
      unfold wrapAdd
      exact Nat.mod_eq_of_lt (by omega)
    simp only [List.foldl_cons, List.length_cons, h1]
    rw [ih (a + 1) (by omega)]
    omega

theorem map_const_len {α : Type} (l : List α) (c : Nat) :
    l.map (fun _ => c) = List.replicate l.length c := by
  induction l with
  | nil => rfl
  | cons x xs ih => simp [List.replicate, ih]

theorem foldl_wrapAdd_replicate (n c a : Nat) (ha : a < 2 ^ 32) :
    (List.replicate n c).foldl (fun x y => wrapAdd x y) a = (a + n * c) % 2 ^ 32 := by
  induction n generalizing a with
  | zero => simpa using (Nat.mod_eq_of_lt ha).symm
  | succ m ih =>
    rw [List.replicate_succ, List.foldl_cons]
    rw [ih (wrapAdd a c) (Nat.mod_lt _ (by norm_num))]
    unfold wrapAdd
    rw [Nat.mod_add_mod]
    congr 1
    ring

theorem joinAll_map_some (l : List Nat) (a : Nat) :
    joinAll a (l.map some) = some (l.foldl (fun x y => wrapAdd x y) a) := by
  induction l generalizing a with
  | nil => rfl
  | cons x xs ih => simp [joinAll, ih]

theorem joinAll_of_mem_none (l : List (Option Nat)) (h : none ∈ l) (a : Nat) :
    joinAll a l = none := by
  induction l generalizing a with
  | nil => cases h
  | cons x xs ih =>
    cases x with
    | none => rfl
    | some c =>
      rcases List.mem_cons.mp h with h1 | h2
      · exact Option.noConfusion h1
      · exact ih h2 (wrapAdd a c)

theorem workerLoop_true (re : Regex) (h : re.isMatch HAYSTACK = true) :
    workerLoop re = ITERS := by
  unfold workerLoop
  simp only [h, if_true]
  have hlen : (0 : Nat) + (List.range ITERS).length < 2 ^ 32 := by
    rw [List.length_range]
    norm_num [ITERS]
  rw [foldl_wrapAdd_one (List.range ITERS) 0 hlen, List.length_range]
  exact Nat.zero_add ITERS

theorem clonedHandles_true (b : Benchmark) (h : b.re.isMatch HAYSTACK = true) :
    b.clonedHandles = List.replicate b.threads ITERS := by
  unfold Benchmark.clonedHandles
  rw [workerLoop_true b.re.clone h, map_const_len, List.length_range]

theorem sharedHandles_eq_cloned (b : Benchmark) :
    b.sharedHandles = b.clonedHandles := rfl

theorem clonedMatched_mod (b : Benchmark) (h : b.re.isMatch HAYSTACK = true) :
    b.clonedMatched = (b.threads * ITERS) % 2 ^ 32 := by
  unfold Benchmark.clonedMatched
  rw [clonedHandles_true b h, foldl_wrapAdd_replicate _ _ _ (by norm_num)]
  simp

theorem clonedMatched_true (b : Benchmark) (h : b.re.isMatch HAYSTACK = true)
    (h31 : b.threads * ITERS < 2 ^ 31) :
    b.clonedMatched = b.threads * ITERS := by
  rw [clonedMatched_mod b h]
  exact Nat.mod_eq_of_lt (lt_trans h31 (by norm_num))

theorem runStrategy_replicate_pattern (t : Nat) :
    runStrategy ((List.replicate t ITERS).map some)
      = if toI32 ((t * ITERS) % 2 ^ 32) > 0
        then StrategyResult.ok ((t * ITERS) % 2 ^ 32)
        else StrategyResult.assertFailure := by
  unfold runStrategy
  rw [joinAll_map_some, foldl_wrapAdd_replicate _ _ _ (by norm_num)]
  simp

theorem runStrategy_replicate_ok (t : Nat) (ht : 1 ≤ t) (h31 : t * ITERS < 2 ^ 31) :
    runStrategy ((List.replicate t ITERS).map some) = StrategyResult.ok (t * ITERS) := by
  rw [runStrategy_replicate_pattern]
  have hmod : (t * ITERS) % 2 ^ 32 = t * ITERS :=
    Nat.mod_eq_of_lt (lt_trans h31 (by norm_num))
  rw [hmod]
  have htoi : toI32 (t * ITERS) = ((t * ITERS : Nat) : Int) := by
    unfold toI32
    rw [if_pos h31]
  have hpos : 0 < t * ITERS := Nat.mul_pos ht (by decide)
  rw [htoi, if_pos (Int.natCast_pos.mpr hpos)]

theorem cloned_ok (b : Benchmark) (h : b.re.isMatch HAYSTACK = true)
    (ht : 1 ≤ b.threads) (h31 : b.threads * ITERS < 2 ^ 31) :
    b.cloned = StrategyResult.ok (b.threads * ITERS) := by
  unfold Benchmark.cloned
  rw [clonedHandles_true b h]
  exact runStrategy_replicate_ok b.threads ht h31

theorem shared_ok (b : Benchmark) (h : b.re.isMatch HAYSTACK = true)
    (ht : 1 ≤ b.threads) (h31 : b.threads * ITERS < 2 ^ 31) :
    b.shared = StrategyResult.ok (b.threads * ITERS) := by
  unfold Benchmark.shared
  rw [sharedHandles_eq_cloned, clonedHandles_true b h]
  exact runStrategy_replicate_ok b.threads ht h31

theorem runStrategy_ne_errReturn (handles : List (Option Nat)) (e : String) :
    runStrategy handles ≠ StrategyResult.errReturn e := by
  unfold runStrategy
  split
  · exact fun hcon => StrategyResult.noConfusion hcon
  · split
    · exact fun hcon => StrategyResult.noConfusion hcon
    · exact fun hcon => StrategyResult.noConfusion hcon

theorem filterMap_replicate_none {α β : Type} (f : α → Option β) (a : α)
    (hf : f a = none) (n : Nat) :
    List.filterMap f (List.replicate n a) = [] := by
  induction n with
  | zero => rfl
  | succ m ih => rw [List.replicate_succ, List.filterMap_cons, hf]; exact ih

theorem printedLines_pre_spawn (n : Nat) :
    printedLines (Event.compiledPattern :: spawnEvents n) = [] := by
  unfold printedLines spawnEvents
  rw [List.filterMap_cons]
  exact filterMap_replicate_none _ _ rfl n

theorem compiled_mem_finishRun (r : StrategyResult) (d : String) (evs : List Event) :
    Event.compiledPattern ∈ (finishRun r d (Event.compiledPattern :: evs)).2 := by
  cases r <;> simp [finishRun]

theorem mainRun_cloned_eq (ts : String) (n : Nat) (d : String)
    (hp : parseU32 ts = some n) :
    mainRun (some ts) (some "cloned") d
      = finishRun (Benchmark.mk emptyPatternRegex n).cloned d
          (Event.compiledPattern :: spawnEvents n) := by
  show withParsed (parseU32 ts) (some "cloned") d = _
  rw [hp]
  rfl

theorem mainRun_shared_eq (ts : String) (n : Nat) (d : String)
    (hp : parseU32 ts = some n) :
    mainRun (some ts) (some "shared") d
      = finishRun (Benchmark.mk emptyPatternRegex n).shared d
          (Event.compiledPattern :: spawnEvents n) := by
  show withParsed (parseU32 ts) (some "shared") d = _
  rw [hp]
  rfl

theorem printedLines_append (l m : List Event) :
    printedLines (l ++ m) = printedLines l ++ printedLines m := by
  unfold printedLines
  rw [List.filterMap_append]

theorem finishRun_success_lines (r : StrategyResult) (d : String) (n : Nat)
    (hne : ∀ e, r ≠ StrategyResult.errReturn e)
    (h : (finishRun r d (Event.compiledPattern :: spawnEvents n)).1 = MainOutcome.success) :
    printedLines (finishRun r d (Event.compiledPattern :: spawnEvents n)).2
      = ["Ok(" ++ d ++ ")"] := by
  cases r with
  | ok m =>
    show printedLines ((Event.compiledPattern :: spawnEvents n)
        ++ [Event.printed (resultLine (Except.ok ()) d)]) = _
    rw [printedLines_append, printedLines_pre_spawn]
    rfl
  | errReturn e => exact absurd rfl (hne e)
  | assertFailure => exact MainOutcome.noConfusion h
  | workerPanic => exact MainOutcome.noConfusion h

theorem mainRun_parse_none (s : String) (w : Option String) (d : String)
    (h : parseU32 s = none) :
    mainRun (some s) w d = (MainOutcome.error parseIntErrorMsg, []) := by
  show withParsed (parseU32 s) w d = _
  rw [h]
  rfl

theorem mainRun_success_lines (tv wv : Option String) (d : String)
    (h : (mainRun tv wv d).1 = MainOutcome.success) :
    printedLines (mainRun tv wv d).2 = ["Ok(" ++ d ++ ")"] := by
  cases tv with
  | none => exact MainOutcome.noConfusion h
  | some ts =>
    cases hp : parseU32 ts with
    | none =>
      rw [mainRun_parse_none ts wv d hp] at h
      exact MainOutcome.noConfusion h
    | some n =>
      have hm : mainRun (some ts) wv d = withWhich n wv d := by
        show withParsed (parseU32 ts) wv d = _
        rw [hp]
        rfl
      rw [hm] at h ⊢
      cases wv with
      | none => exact MainOutcome.noConfusion h
      | some which =>
        by_cases hc : which = "cloned"
        · subst hc
          exact finishRun_success_lines (Benchmark.mk emptyPatternRegex n).cloned d n
            (fun e => runStrategy_ne_errReturn _ e) h
        · by_cases hs : which = "shared"
          · subst hs
            exact finishRun_success_lines (Benchmark.mk emptyPatternRegex n).shared d n
              (fun e => runStrategy_ne_errReturn _ e) h
          · exfalso
            have he : (withWhich n (some which) d).1
                = MainOutcome.error (String.append "unrecognized REGEX_BENCH_WHICH=" which) := by
              simp only [withWhich]
              rw [if_neg hc, if_neg hs]
            rw [he] at h
            exact MainOutcome.noConfusion h

theorem parseU32_digits (s : String) (hne : s.data ≠ [])
    (hall : s.data.all Char.isDigit = true) (hlt : digitsToNat s.data < 2 ^ 32) :
    parseU32 s = some (digitsToNat s.data) := by
  have hds : stripPlus s.data = s.data := by
    cases hcs : s.data with
    | nil => exact absurd hcs hne
    | cons c rest =>
      have hcd : Char.isDigit c = true := by
        rw [hcs] at hall
        simp [List.all_cons] at hall
        exact hall.1
      have hcp : ¬ c = '+' := by
        intro hEq
        rw [hEq] at hcd
        exact absurd hcd (by decide)
      simp only [stripPlus]
      rw [if_neg hcp]
  have hE : s.data.isEmpty = false := by
    cases hcs : s.data with
    | nil => exact absurd hcs hne
    | cons c rest => rfl
  simp only [parseU32]
  rw [hds]
  simp [hE, hall]
  exact hlt

theorem parseU32_neg (s : String) (rest : List Char) (h : s.data = '-' :: rest) :
    parseU32 s = none := by
  have hds : stripPlus s.data = '-' :: rest := by
    rw [h]
    simp only [stripPlus]
    rw [if_neg (by decide)]
  have hd : Char.isDigit '-' = false := by decide
  simp only [parseU32]
  rw [hds]
  simp [List.all_cons, hd]

theorem parseU32_overflow (s : String) (hall : s.data.all Char.isDigit = true)
    (hge : 2 ^ 32 ≤ digitsToNat s.data) : parseU32 s = none := by
  cases hcs : s.data with
  | nil =>
    exfalso
    rw [hcs] at hge
    simp [digitsToNat] at hge
  | cons c rest =>
    have hall2 : s.data.all Char.isDigit = true := hall
    rw [hcs] at hall2
    have hcd : Char.isDigit c = true := by
      simp [List.all_cons] at hall2
      exact hall2.1
    have hcp : ¬ c = '+' := by
      intro hEq
      rw [hEq] at hcd
      exact absurd hcd (by decide)
    have hds : stripPlus s.data = s.data := by
      rw [hcs]
      simp only [stripPlus]
      rw [if_neg hcp]
    have hE : s.data.isEmpty = false := by rw [hcs]; rfl
    simp only [parseU32]
    rw [hds]
    simp [hE, hall]
    exact hge

theorem compiled_mem_mainRun (s : String) (n : Nat) (w : Option String) (d : String)
    (hp : parseU32 s = some n) :
    Event.compiledPattern ∈ (mainRun (some s) w d).2 := by
  have hm : mainRun (some s) w d = withWhich n w d := by
    show withParsed (parseU32 s) w d = _
    rw [hp]
    rfl
  rw [hm]
  cases w with
  | none => simp [withWhich]
  | some which =>
    by_cases hc : which = "cloned"
    · subst hc
      exact compiled_mem_finishRun (Benchmark.mk emptyPatternRegex n).cloned d (spawnEvents n)
    · by_cases hs : which = "shared"
      · subst hs
        exact compiled_mem_finishRun (Benchmark.mk emptyPatternRegex n).shared d (spawnEvents n)
      · simp only [withWhich]
        rw [if_neg hc, if_neg hs]
        simp

/-! ## Claims -/

/-- Claim C1 counterexample: at 21475 threads, with every `is_match` call
matching, the joiner's inferred `i32` accumulator overflows: its bit
pattern is 2147500000, its signed `i32` value is -2147467296 rather than
`21475 * ITERS`, and `assert!(matched > 0)` fails on the negative value so
the run aborts — the aggregated match count does not equal
`thread_count * 100000` even inside the claim's domain of thread counts at
least 1.  (A debug build instead panics at the overflowing `+=`; under
neither profile does the aggregate equal the product.) -/
theorem c1_counterexample :
    (Benchmark.mk emptyPatternRegex 21475).cloned = StrategyResult.assertFailure ∧
    (Benchmark.mk emptyPatternRegex 21475).clonedMatched = 2147500000 ∧
    toI32 ((Benchmark.mk emptyPatternRegex 21475).clonedMatched) = -2147467296 ∧
    ((toI32 ((Benchmark.mk emptyPatternRegex 21475).clonedMatched)
        == ((21475 * ITERS : Nat) : Int)) = false) := by
  have hmod : ((21475 : Nat) * ITERS) % 2 ^ 32 = 2147500000 := by decide
  have hmt : (Benchmark.mk emptyPatternRegex 21475).clonedMatched = 2147500000 := by
    rw [clonedMatched_mod (Benchmark.mk emptyPatternRegex 21475) rfl]
    exact hmod
  have hni : ¬ (toI32 2147500000 > 0) := by decide
  have hcl : (Benchmark.mk emptyPatternRegex 21475).cloned
      = StrategyResult.assertFailure := by
    show runStrategy (((Benchmark.mk emptyPatternRegex 21475).clonedHandles).map some) = _
    rw [clonedHandles_true (Benchmark.mk emptyPatternRegex 21475) rfl]
    show runStrategy ((List.replicate 21475 ITERS).map some) = _
    rw [runStrategy_replicate_pattern, hmod, if_neg hni]
  refine ⟨hcl, hmt, ?_, ?_⟩
  · rw [hmt]
    decide
  · rw [hmt]
    decide

/-- Claim C1 as amended: for every thread count at least 1 whose total
`threads * 100000` still fits in the inferred `i32` accumulator
(`threads * ITERS < 2 ^ 31`, i.e. at most 21474 threads), and for both
strategies, the aggregated match count summed over all workers equals
`thread_count * ITERS`, given that the fixed pattern matches the fixed
haystack on every `is_match` call; beyond that bound the `i32` accumulator
overflows and the equality fails (see the counterexample). -/
theorem c1_amended_total (b : Benchmark) (ht : 1 ≤ b.threads)
    (h31 : b.threads * ITERS < 2 ^ 31)
    (h : b.re.isMatch HAYSTACK = true) :
    b.clonedMatched = b.threads * ITERS ∧
    b.sharedMatched = b.threads * ITERS ∧
    b.cloned = StrategyResult.ok (b.threads * ITERS) ∧
    b.shared = StrategyResult.ok (b.threads * ITERS) := by
  refine ⟨clonedMatched_true b h h31, ?_, cloned_ok b h ht h31, shared_ok b h ht h31⟩
  unfold Benchmark.sharedMatched
  rw [sharedHandles_eq_cloned]
  exact clonedMatched_true b h h31

/-- Witness for the amended C1 at three threads and the always-matching
matcher. -/
theorem c1_amended_total_witness :
    1 ≤ (Benchmark.mk emptyPatternRegex 3).threads ∧
    (Benchmark.mk emptyPatternRegex 3).threads * ITERS < 2 ^ 31 ∧
    (Benchmark.mk emptyPatternRegex 3).re.isMatch HAYSTACK = true ∧
    ((Benchmark.mk emptyPatternRegex 3).clonedMatched
        = (Benchmark.mk emptyPatternRegex 3).threads * ITERS ∧
      (Benchmark.mk emptyPatternRegex 3).sharedMatched
        = (Benchmark.mk emptyPatternRegex 3).threads * ITERS ∧
      (Benchmark.mk emptyPatternRegex 3).cloned
        = StrategyResult.ok ((Benchmark.mk emptyPatternRegex 3).threads * ITERS) ∧
      (Benchmark.mk emptyPatternRegex 3).shared
        = StrategyResult.ok ((Benchmark.mk emptyPatternRegex 3).threads * ITERS)) :=
  ⟨by decide, by decide, rfl,
    c1_amended_total (Benchmark.mk emptyPatternRegex 3) (by decide) (by decide) rfl⟩

/-- Claim C2: for every thread count (and matcher), the cloned strategy and
the shared strategy yield identical aggregated match counts and identical
outcomes; the two strategies differ only in timing, not in the computed
count. -/
theorem c2_strategy_equivalence (b : Benchmark) :
    b.clonedMatched = b.sharedMatched ∧ b.cloned = b.shared :=
  ⟨rfl, rfl⟩

/-- Claim C3: in the concrete scenario (empty pattern, haystack
`"ZQZQZQZQ"`, 100000 iterations per thread, 4 threads, cloned strategy) the
aggregated match count is exactly 400000, the run succeeds, and the duration
is printed exactly once. -/
theorem c3_concrete_scenario (d : String) :
    (Benchmark.mk emptyPatternRegex 4).cloned = StrategyResult.ok 400000 ∧
    mainRun (some "4") (some "cloned") d
      = (MainOutcome.success,
          Event.compiledPattern :: spawnEvents 4
            ++ [Event.printed ("Ok(" ++ d ++ ")")]) ∧
    printedLines (mainRun (some "4") (some "cloned") d).2 = ["Ok(" ++ d ++ ")"] ∧
    exitCode (mainRun (some "4") (some "cloned") d).1 = 0 := by
  have hb : (Benchmark.mk emptyPatternRegex 4).cloned = StrategyResult.ok 400000 := by
    have h4 := cloned_ok (Benchmark.mk emptyPatternRegex 4) rfl (by decide) (by decide)
    simpa [ITERS] using h4
  have hm : mainRun (some "4") (some "cloned") d
      = (MainOutcome.success,
          Event.compiledPattern :: spawnEvents 4 ++ [Event.printed ("Ok(" ++ d ++ ")")]) := by
    rw [mainRun_cloned_eq "4" 4 d (by decide), hb]
    rfl
  refine ⟨hb, hm, ?_, ?_⟩
  · rw [hm]
    rfl
  · rw [hm]
    rfl

/-- Claim C4 counterexample: with the thread-count configuration `"0"` the
run is NOT rejected with a configuration error before worker construction:
the parse succeeds, the pattern is compiled, and the run later aborts with
the workload-integrity panic instead of returning a configuration error. -/
theorem c4_counterexample :
    mainRun (some "0") (some "cloned") "1ms"
      = (MainOutcome.panicked, [Event.compiledPattern]) := by decide

/-- Claim C4 as amended: a thread-count configuration value that does not
parse as `u32` makes the run fail with the configuration error before the
pattern is compiled and before any worker exists, while the value `"0"` is
accepted by the parse and the run instead aborts later with the
workload-integrity panic. -/
theorem c4_amended_config (s : String) (w : Option String) (d : String)
    (h : parseU32 s = none) :
    (mainRun (some s) w d = (MainOutcome.error parseIntErrorMsg, []) ∧
      exitCode (mainRun (some s) w d).1 = 1) ∧
    (mainRun (some "0") (some "cloned") d).1 = MainOutcome.panicked := by
  have hm := mainRun_parse_none s w d h
  exact ⟨⟨hm, by rw [hm]; rfl⟩, rfl⟩

/-- Witness for the amended C4 at the unparseable value `"zq"`. -/
theorem c4_amended_config_witness :
    parseU32 "zq" = none ∧
    ((mainRun (some "zq") (some "cloned") "1ms"
          = (MainOutcome.error parseIntErrorMsg, []) ∧
        exitCode (mainRun (some "zq") (some "cloned") "1ms").1 = 1) ∧
      (mainRun (some "0") (some "cloned") "1ms").1 = MainOutcome.panicked) :=
  ⟨by decide, c4_amended_config "zq" (some "cloned") "1ms" (by decide)⟩

/-- Claim C5: with thread count `0`, for both strategies, the aggregated
match count is `0`, the workload-integrity assertion aborts the run with a
panic (non-zero exit), and nothing is printed to stdout: never a silent
zero-duration success. -/
theorem c5_zero_thread_count (d : String) :
    (mainRun (some "0") (some "cloned") d).1 = MainOutcome.panicked ∧
    (mainRun (some "0") (some "shared") d).1 = MainOutcome.panicked ∧
    printedLines (mainRun (some "0") (some "cloned") d).2 = [] ∧
    printedLines (mainRun (some "0") (some "shared") d).2 = [] ∧
    exitCode (mainRun (some "0") (some "cloned") d).1 = 101 ∧
    exitCode (mainRun (some "0") (some "shared") d).1 = 101 ∧
    (Benchmark.mk emptyPatternRegex 0).clonedMatched = 0 ∧
    (Benchmark.mk emptyPatternRegex 0).sharedMatched = 0 :=
  ⟨rfl, rfl, rfl, rfl, rfl, rfl, rfl, rfl⟩

/-- Claim C6: for every strategy-selector value other than `"cloned"` and
`"shared"` (with a well-formed thread count), the run fails immediately with
an error message naming the offending value, the pattern having been
compiled but no worker spawned and nothing printed, and the process exits
non-zero. -/
theorem c6_unrecognized_selector (ts which d : String) (n : Nat)
    (hp : parseU32 ts = some n) (h1 : which ≠ "cloned") (h2 : which ≠ "shared") :
    mainRun (some ts) (some which) d
        = (MainOutcome.error (String.append "unrecognized REGEX_BENCH_WHICH=" which),
            [Event.compiledPattern]) ∧
    exitCode (mainRun (some ts) (some which) d).1 = 1 := by
  have hm : mainRun (some ts) (some which) d
      = (MainOutcome.error (String.append "unrecognized REGEX_BENCH_WHICH=" which),
          [Event.compiledPattern]) := by
    show withParsed (parseU32 ts) (some which) d = _
    rw [hp]
    show withWhich n (some which) d = _
    simp only [withWhich]
    rw [if_neg h1, if_neg h2]
  exact ⟨hm, by rw [hm]; rfl⟩

/-- Witness for C6 at the selector `"bogus"`. -/
theorem c6_unrecognized_selector_witness :
    mainRun (some "4") (some "bogus") "1ms"
        = (MainOutcome.error (String.append "unrecognized REGEX_BENCH_WHICH=" "bogus"),
            [Event.compiledPattern]) ∧
    exitCode (mainRun (some "4") (some "bogus") "1ms").1 = 1 :=
  c6_unrecognized_selector "4" "bogus" "1ms" 4 (by decide) (by decide) (by decide)

/-- Concrete successful run used for C7: one thread, cloned strategy,
duration rendering `"12.345ms"`. -/
theorem run_one_cloned :
    mainRun (some "1") (some "cloned") "12.345ms"
      = (MainOutcome.success,
          Event.compiledPattern :: spawnEvents 1
            ++ [Event.printed ("Ok(" ++ "12.345ms" ++ ")")]) := by
  have hb := cloned_ok (Benchmark.mk emptyPatternRegex 1) rfl (by decide) (by decide)
  rw [mainRun_cloned_eq "1" 1 "12.345ms" (by decide), hb]
  rfl

/-- Claim C7 counterexample: on a successful run the single stdout line is
`Ok(12.345ms)`, the Debug rendering of the `Result` wrapping the duration,
which is not the bare duration literal `12.345ms`: the line carries the
surrounding `Ok(...)` wrapper. -/
theorem c7_counterexample :
    printedLines (mainRun (some "1") (some "cloned") "12.345ms").2
        = ["Ok(12.345ms)"] ∧
    (("Ok(12.345ms)" == "12.345ms") = false) := by
  constructor
  · rw [run_one_cloned]
    rfl
  · decide

/-- Claim C7 as amended: on every successful run, standard output contains
exactly one line, and that line is the Debug rendering of the
`anyhow::Result<Duration>` value: the duration rendering `d` surrounded by
the wrapper `Ok(` and `)`, rather than a bare duration literal. -/
theorem c7_amended_output (tv wv : Option String) (d : String)
    (h : (mainRun tv wv d).1 = MainOutcome.success) :
    printedLines (mainRun tv wv d).2 = ["Ok(" ++ d ++ ")"] :=
  mainRun_success_lines tv wv d h

/-- Witness for the amended C7 on the one-thread cloned run. -/
theorem c7_amended_output_witness :
    (mainRun (some "1") (some "cloned") "12.345ms").1 = MainOutcome.success ∧
    printedLines (mainRun (some "1") (some "cloned") "12.345ms").2
      = ["Ok(" ++ "12.345ms" ++ ")"] :=
  ⟨by rw [run_one_cloned], c7_amended_output (some "1") (some "cloned") "12.345ms"
      (by rw [run_one_cloned])⟩

/-- Claim C8: whenever some worker handle reports an abnormal termination,
the `join().unwrap()` loop panics, the strategy never returns, the whole run
aborts with a non-zero exit, and no line is printed: the joiner never drops
that worker's contribution and reports a partial result. -/
theorem c8_worker_panic_propagates (handles : List (Option Nat)) (d : String)
    (evs : List Event) (h : none ∈ handles) :
    runStrategy handles = StrategyResult.workerPanic ∧
    finishRun (runStrategy handles) d evs = (MainOutcome.panicked, evs) ∧
    exitCode (finishRun (runStrategy handles) d evs).1 = 101 ∧
    printedLines (finishRun (runStrategy handles) d evs).2 = printedLines evs := by
  have hr : runStrategy handles = StrategyResult.workerPanic := by
    unfold runStrategy
    rw [joinAll_of_mem_none handles h 0]
  rw [hr]
  exact ⟨rfl, rfl, rfl, rfl⟩

/-- Witness for C8: the second of two workers panicked. -/
theorem c8_worker_panic_propagates_witness :
    none ∈ [some 7, none] ∧
    (runStrategy [some 7, none] = StrategyResult.workerPanic ∧
      finishRun (runStrategy [some 7, none]) "1ms" [Event.compiledPattern]
        = (MainOutcome.panicked, [Event.compiledPattern]) ∧
      exitCode (finishRun (runStrategy [some 7, none]) "1ms" [Event.compiledPattern]).1
        = 101 ∧
      printedLines (finishRun (runStrategy [some 7, none]) "1ms" [Event.compiledPattern]).2
        = printedLines [Event.compiledPattern]) :=
  ⟨by decide,
    c8_worker_panic_propagates [some 7, none] "1ms" [Event.compiledPattern] (by decide)⟩

/-- Claim C9: `cloned` and `shared` never produce the `Err` variant of their
`anyhow::Result` return type: whenever either returns (rather than panicking
on the assertion or a worker failure) the value is `Ok`, so the error branch
of the `Result` printed by `main` is unreachable, and on an `Ok` strategy
result `main` prints the single line and exits zero. -/
theorem c9_no_error_return (b : Benchmark) (d : String) (evs : List Event) :
    (∀ e, b.cloned ≠ StrategyResult.errReturn e) ∧
    (∀ e, b.shared ≠ StrategyResult.errReturn e) ∧
    (∀ m, b.cloned = StrategyResult.ok m →
      finishRun b.cloned d evs
          = (MainOutcome.success, evs ++ [Event.printed ("Ok(" ++ d ++ ")")]) ∧
      exitCode (finishRun b.cloned d evs).1 = 0) ∧
    (∀ m, b.shared = StrategyResult.ok m →
      finishRun b.shared d evs
          = (MainOutcome.success, evs ++ [Event.printed ("Ok(" ++ d ++ ")")]) ∧
      exitCode (finishRun b.shared d evs).1 = 0) := by
  refine ⟨fun e => runStrategy_ne_errReturn _ e, fun e => runStrategy_ne_errReturn _ e,
    ?_, ?_⟩
  · intro m hm
    rw [hm]
    exact ⟨rfl, rfl⟩
  · intro m hm
    rw [hm]
    exact ⟨rfl, rfl⟩

/-- Witness for C9 at one thread with the always-matching matcher. -/
theorem c9_no_error_return_witness :
    (Benchmark.mk emptyPatternRegex 1).cloned ≠ StrategyResult.errReturn "boom" ∧
    (finishRun (Benchmark.mk emptyPatternRegex 1).cloned "1ms" []
        = (MainOutcome.success, [] ++ [Event.printed ("Ok(" ++ "1ms" ++ ")")]) ∧
      exitCode (finishRun (Benchmark.mk emptyPatternRegex 1).cloned "1ms" []).1 = 0) :=
  ⟨(c9_no_error_return (Benchmark.mk emptyPatternRegex 1) "1ms" []).1 "boom",
    (c9_no_error_return (Benchmark.mk emptyPatternRegex 1) "1ms" []).2.2.1
      ((Benchmark.mk emptyPatternRegex 1).threads * ITERS)
      (cloned_ok (Benchmark.mk emptyPatternRegex 1) rfl (by decide) (by decide))⟩

/-- Claim C10: the thread-count value is parsed as a 32-bit unsigned
integer: every decimal digit string with value at most 4294967295 (including
`"0"`) is accepted at configuration time (after which the pattern is
compiled), while leading-minus, oversized, and otherwise unparseable values
make the run fail at configuration time with a non-zero exit, before the
pattern is compiled (empty event trace). -/
theorem c10_u32_parse :
    (∀ s : String, s.data ≠ [] → s.data.all Char.isDigit = true →
        digitsToNat s.data < 2 ^ 32 → parseU32 s = some (digitsToNat s.data)) ∧
    (∀ (s : String) (rest : List Char), s.data = '-' :: rest → parseU32 s = none) ∧
    (∀ s : String, s.data.all Char.isDigit = true → 2 ^ 32 ≤ digitsToNat s.data →
        parseU32 s = none) ∧
    (∀ (s : String) (w : Option String) (d : String), parseU32 s = none →
        mainRun (some s) w d = (MainOutcome.error parseIntErrorMsg, []) ∧
        exitCode (mainRun (some s) w d).1 = 1) ∧
    (∀ (s : String) (n : Nat) (w : Option String) (d : String), parseU32 s = some n →
        Event.compiledPattern ∈ (mainRun (some s) w d).2) :=
  ⟨parseU32_digits, parseU32_neg, parseU32_overflow,
    fun s w d h => ⟨mainRun_parse_none s w d h, by rw [mainRun_parse_none s w d h]; rfl⟩,
    compiled_mem_mainRun⟩

/-- Witness for C10 on `"42"`, `"-3"`, `"4294967296"`, `"zq"` and `"4"`. -/
theorem c10_u32_parse_witness :
    parseU32 "42" = some (digitsToNat "42".data) ∧
    parseU32 "-3" = none ∧
    parseU32 "4294967296" = none ∧
    (mainRun (some "zq") (some "cloned") "1ms"
        = (MainOutcome.error parseIntErrorMsg, []) ∧
      exitCode (mainRun (some "zq") (some "cloned") "1ms").1 = 1) ∧
    Event.compiledPattern ∈ (mainRun (some "4") (some "bogus") "1ms").2 :=
  ⟨c10_u32_parse.1 "42" (by decide) (by decide) (by decide),
    c10_u32_parse.2.1 "-3" ['3'] (by decide),
    c10_u32_parse.2.2.1 "4294967296" (by decide) (by decide),
    c10_u32_parse.2.2.2.1 "zq" (some "cloned") "1ms" (by decide),
    c10_u32_parse.2.2.2.2 "4" 4 (some "bogus") "1ms" (by decide)⟩
